import Mathlib

/-!
# Verification of the mailbox ingestion pipeline

Shallow embedding of the email-ingestion subsystem:
`emails/services/graph_service.py` (GraphAPIService: token cache and
retry/backoff HTTP loop) and `emails/services/email_reader.py`
(EmailReaderService: normalization, idempotent upsert, pagination and
sync-health tracking), against `emails/models.py`.

JSON payloads are modelled as association lists of `JsonVal` (Python dicts
preserve insertion order; `get` returns the first binding).  The HTTP layer,
the wall clock and the database are explicit parameters/state.
-/

/-- A JSON-like value, the shape of Microsoft Graph payload fields. -/
inductive JsonVal where
  | str : String → JsonVal
  | num : Int → JsonVal
  | bool : Bool → JsonVal
  | null : JsonVal
  | arr : List JsonVal → JsonVal
  | obj : List (String × JsonVal) → JsonVal
deriving Repr

mutual

/-- Boolean equality of JSON values (Python `==` on plain JSON data). -/
def JsonVal.beq : JsonVal → JsonVal → Bool
  | .str a, .str b => a == b
  | .num a, .num b => a == b
  | .bool a, .bool b => a == b
  | .null, .null => true
  | .arr a, .arr b => JsonVal.beqList a b
  | .obj a, .obj b => JsonVal.beqObj a b
  | _, _ => false

/-- Pointwise `JsonVal.beq` on lists. -/
def JsonVal.beqList : List JsonVal → List JsonVal → Bool
  | [], [] => true
  | a :: as, b :: bs => JsonVal.beq a b && JsonVal.beqList as bs
  | _, _ => false

/-- Pointwise `JsonVal.beq` on key/value lists. -/
def JsonVal.beqObj : List (String × JsonVal) → List (String × JsonVal) → Bool
  | [], [] => true
  | (k, a) :: as, (l, b) :: bs => k == l && JsonVal.beq a b && JsonVal.beqObj as bs
  | _, _ => false

end

/-- A raw Graph message payload: a JSON object, as an association list. -/
abbrev RawMsg := List (String × JsonVal)

/-- Python `dict.get(k)`: the first binding of `k`, if any. -/
def dictGet (d : RawMsg) (k : String) : Option JsonVal :=
  match d with
  | [] => none
  | (k', v) :: rest => if k' = k then some v else dictGet rest k

/-- Python `dict.get(k, default)`. -/
def dictGetD (d : RawMsg) (k : String) (dflt : JsonVal) : JsonVal :=
  (dictGet d k).getD dflt

/-- Python truthiness of a JSON value (`if graph_email.get(k):` etc.). -/
def pyTruthy : JsonVal → Bool
  | .str s => s != ""
  | .num n => n != 0
  | .bool b => b
  | .null => false
  | .arr xs => !xs.isEmpty
  | .obj xs => !xs.isEmpty

/-- Truthiness of an optional value: `None` is falsy. -/
def pyTruthyOpt : Option JsonVal → Bool
  | none => false
  | some v => pyTruthy v

example : dictGet [("id", JsonVal.str "x")] "id" = some (JsonVal.str "x") := rfl
example : pyTruthyOpt (dictGet [("id", JsonVal.str "")] "id") = false := rfl

/-!
## GraphAPIService (`emails/services/graph_service.py`)

`get_access_token` checks the Django cache, then the three Azure credential
fields, then performs the client-credentials exchange.  The cache and the
outcome of the network exchange are explicit parameters; the returned record
carries the outcome, the cache state after the call and the number of
network token exchanges performed.
-/

/-- The three Azure AD credential fields read by `GraphAPIService.__init__`
(`config(..., default='')`: an unset variable is the empty string). -/
structure AzureConfig where
  client_id : String
  client_secret : String
  tenant_id : String
deriving Repr, DecidableEq

/-- Outcome of the network token exchange, were it performed. -/
inductive TokenExchange where
  /-- 2xx response whose JSON carries `access_token` and `expires_in`. -/
  | ok (token : String) (expires_in : Int)
  /-- 2xx response with no (or falsy) `access_token` field. -/
  | okNoToken
  /-- `requests.exceptions.RequestException` (incl. non-2xx via
  `raise_for_status`). -/
  | reqError (msg : String)
deriving Repr, DecidableEq

/-- Error raised by `get_access_token`. -/
inductive AuthErr where
  /-- `ValueError("Azure AD credentials not configured. ...")`. -/
  | authConfigError
  /-- `ValueError("Failed to obtain access token from Azure AD")`. -/
  | noTokenInResponse
  /-- `Exception("Failed to authenticate with Azure AD: ...")`. -/
  | requestFailed (msg : String)
deriving Repr, DecidableEq

/-- Result of one `get_access_token` call. -/
structure TokenCallResult where
  outcome : Except AuthErr String
  /-- cached token and its cache timeout after the call -/
  cache : Option (String × Int)
  /-- number of network token exchanges performed by this call -/
  exchangeCalls : Nat
deriving Repr

/-- `GraphAPIService.get_access_token`: return the cached token when present
and truthy; otherwise require all three credential fields non-empty, then
perform the exchange and cache the token with timeout
`min(expires_in - 300, 3300)`. -/
def get_access_token (cfg : AzureConfig) (cache : Option (String × Int))
    (exchange : TokenExchange) : TokenCallResult :=
  match cache with
  | some (tok, t) =>
    if tok ≠ "" then ⟨.ok tok, some (tok, t), 0⟩
    else getFresh cfg exchange
  | none => getFresh cfg exchange
where
  /-- the path past the cache check -/
  getFresh (cfg : AzureConfig) (exchange : TokenExchange) : TokenCallResult :=
    if cfg.client_id = "" ∨ cfg.client_secret = "" ∨ cfg.tenant_id = "" then
      ⟨.error .authConfigError, none, 0⟩
    else
      match exchange with
      | .ok tok expires_in =>
        if tok ≠ "" then
          ⟨.ok tok, some (tok, min (expires_in - 300) 3300), 1⟩
        else ⟨.error .noTokenInResponse, none, 1⟩
      | .okNoToken => ⟨.error .noTokenInResponse, none, 1⟩
      | .reqError m => ⟨.error (.requestFailed m), none, 1⟩

/-- Does an auth outcome consist of the missing-credentials failure? -/
def isAuthConfigFailure : Except AuthErr String → Bool
  | .error .authConfigError => true
  | _ => false

/-!
### `_make_request` retry loop

`for attempt in range(retry_count)`: one HTTP request per iteration.  A 429
sleeps `Retry-After` (default 60) and continues; a 401 deletes the cached
token, re-acquires one and continues; any other response goes through
`raise_for_status()` — whose `HTTPError` is a `RequestException`, so a non-2xx
status lands in the `except RequestException` handler: sleep `2**attempt` and
continue while attempts remain, else raise.  Falling off the loop raises
"Failed to complete request after N attempts".

The environment is `responses : Nat → HttpResp`, the response to the i-th
HTTP attempt (`i` = the loop's `attempt` variable).  The trace records HTTP
attempts, sleeps in order (tagged rate-limit vs backoff) and 401-triggered
token re-acquisitions.
-/

/-- Response observed by one HTTP attempt inside `_make_request`. -/
inductive HttpResp where
  /-- 2xx: `raise_for_status` passes, the JSON body is returned. -/
  | ok
  /-- an HTTP status code, with the optional `Retry-After` header value. -/
  | status (code : Nat) (retryAfter : Option Nat)
  /-- `requests.exceptions.Timeout`. -/
  | timeout
  /-- another `requests.exceptions.RequestException` (transport error). -/
  | netError
deriving Repr, DecidableEq

/-- A `time.sleep` performed by the retry loop. -/
inductive SleepEvent where
  | rateLimit (secs : Nat)
  | backoff (secs : Nat)
deriving Repr, DecidableEq

/-- Observable effects of one `_make_request` call. -/
structure ReqTrace where
  httpAttempts : Nat
  sleeps : List SleepEvent
  tokenReacquisitions : Nat
deriving Repr, DecidableEq

/-- Outcome of `_make_request`: the JSON body (abstracted) or a raised
exception's message. -/
inductive ReqOutcome where
  | success
  | failure (msg : String)
deriving Repr, DecidableEq

/-- The loop body of `GraphAPIService._make_request`, with `remaining`
iterations left out of `retryCount` (so the current `attempt` is
`retryCount - remaining`). -/
def makeRequestAux (responses : Nat → HttpResp) (retryCount : Nat) :
    Nat → ReqTrace → ReqOutcome × ReqTrace
  | 0, tr =>
    (.failure ("Failed to complete request after " ++ toString retryCount
        ++ " attempts"), tr)
  | remaining + 1, tr =>
    let attempt := retryCount - (remaining + 1)
    let tr' : ReqTrace := { tr with httpAttempts := tr.httpAttempts + 1 }
    match responses attempt with
    | .ok => (.success, tr')
    | .status code ra =>
      if code = 429 then
        makeRequestAux responses retryCount remaining
          { tr' with sleeps := tr'.sleeps ++ [.rateLimit (ra.getD 60)] }
      else if code = 401 then
        makeRequestAux responses retryCount remaining
          { tr' with tokenReacquisitions := tr'.tokenReacquisitions + 1 }
      else if 400 ≤ code then
        if 0 < remaining then
          makeRequestAux responses retryCount remaining
            { tr' with sleeps := tr'.sleeps ++ [.backoff (2 ^ attempt)] }
        else (.failure "Graph API request failed", tr')
      else (.success, tr')
    | .timeout =>
      if 0 < remaining then
        makeRequestAux responses retryCount remaining
          { tr' with sleeps := tr'.sleeps ++ [.backoff (2 ^ attempt)] }
      else
        (.failure ("Request timeout after " ++ toString retryCount
            ++ " attempts"), tr')
    | .netError =>
      if 0 < remaining then
        makeRequestAux responses retryCount remaining
          { tr' with sleeps := tr'.sleeps ++ [.backoff (2 ^ attempt)] }
      else (.failure "Graph API request failed", tr')

/-- `GraphAPIService._make_request` after a successful initial token
acquisition (default `retry_count = 3`). -/
def makeRequest (responses : Nat → HttpResp) (retryCount : Nat := 3) :
    ReqOutcome × ReqTrace :=
  makeRequestAux responses retryCount retryCount ⟨0, [], 0⟩

example :
    makeRequest (fun _ => .ok) 3 = (.success, ⟨1, [], 0⟩) := rfl
example :
    (makeRequest (fun _ => .status 500 none) 3).2.httpAttempts = 3 := rfl

/-!
## EmailReaderService (`emails/services/email_reader.py`)

`_convert_graph_email_to_model` and its helpers are pure, but several raw
shapes make the Python raise (`.get` on a non-dict is an `AttributeError`,
iterating a non-iterable a `TypeError`); those paths are modelled as
`Except.error`, caught by the per-message handler.  Payload values kept
verbatim stay `JsonVal`; `str(...)` renderings that only feed log/error
strings are abstracted by `pyStr`.
-/

/-- Account row (`EmailAccount`): identity plus the two sync-health fields
this subsystem writes. -/
structure Account where
  email : String
  is_active : Bool
  last_synced : Option Nat
  sync_error : Option String
deriving Repr, DecidableEq

/-- Abstracted Python `str()` used only inside log/error message strings. -/
def pyStr : JsonVal → String
  | .str s => s
  | .num n => toString n
  | .bool b => if b then "True" else "False"
  | .null => "None"
  | .arr _ => "<list>"
  | .obj _ => "<dict>"

/-- One recipient entry of `_parse_email_addresses`: a dict yields
`recipient.get('emailAddress', {}).get('address')` (kept when truthy), a
plain string is kept as-is, any other shape is dropped silently; a present
non-dict `emailAddress` value has no `.get` (`AttributeError`). -/
def parseRecipientItem (item : JsonVal) : Except String (Option JsonVal) :=
  match item with
  | .obj d =>
    match dictGet d "emailAddress" with
    | none => .ok none
    | some (.obj e) =>
      match dictGet e "address" with
      | none => .ok none
      | some v => .ok (if pyTruthy v then some v else none)
    | some _ => .error "AttributeError"
  | .str s => .ok (some (.str s))
  | _ => .ok none

/-- The element loop of `_parse_email_addresses`. -/
def parseRecipientList : List JsonVal → Except String (List JsonVal)
  | [] => .ok []
  | item :: rest => do
    let o ← parseRecipientItem item
    let tail ← parseRecipientList rest
    .ok (match o with | some v => v :: tail | none => tail)

/-- `EmailReaderService._parse_email_addresses`: falsy input gives `[]`;
a JSON array is scanned entry-wise; iterating a string yields its characters
(each an `isinstance(str)`), iterating a dict yields its keys; other truthy
shapes are not iterable (`TypeError`). -/
def parse_email_addresses (recipients : JsonVal) : Except String (List JsonVal) :=
  if !(pyTruthy recipients) then .ok []
  else match recipients with
    | .arr items => parseRecipientList items
    | .str s => .ok (s.toList.map (fun c => .str (String.singleton c)))
    | .obj d => .ok (d.map (fun kv => .str kv.1))
    | _ => .error "TypeError"

/-- The `from` parsing block of `_convert_graph_email_to_model`:
a dict gives `from_data.get('emailAddress', {}).get('address')` (no
truthiness filter), a string is taken as-is, anything else leaves `None`. -/
def parseFrom (from_data : JsonVal) : Except String (Option JsonVal) :=
  match from_data with
  | .obj d =>
    match dictGet d "emailAddress" with
    | none => .ok none
    | some (.obj e) => .ok (dictGet e "address")
    | some _ => .error "AttributeError"
  | .str s => .ok (some (.str s))
  | _ => .ok none

/-- `EmailReaderService._parse_email_body`: falsy body gives `('', '')`;
exactly one of (text, html) is populated depending on
`contentType == 'html'`; a truthy non-dict body has no `.get`. -/
def parse_email_body (body : JsonVal) : Except String (JsonVal × JsonVal) :=
  if !(pyTruthy body) then .ok (.str "", .str "")
  else match body with
    | .obj d =>
      let content := dictGetD d "content" (.str "")
      let content_type := dictGetD d "contentType" (.str "text")
      if JsonVal.beq content_type (.str "html") then .ok (.str "", content)
      else .ok (content, .str "")
    | _ => .error "AttributeError"

/-- Modelled acceptance predicate of Python's `datetime.fromisoformat`
(standard library, not part of this repository): a simplified
well-formedness check for `YYYY-MM-DD[THH:MM:SS[±HH:MM]]` strings.  No
claim depends on which strings are accepted, only on the success/failure
split being a modelled case. -/
def isoDatePart : List Char → Option (List Char)
  | y1 :: y2 :: y3 :: y4 :: '-' :: m1 :: m2 :: '-' :: d1 :: d2 :: rest =>
    if [y1, y2, y3, y4, m1, m2, d1, d2].all Char.isDigit then some rest else none
  | _ => none

/-- Time-of-day part of the simplified ISO-8601 check. -/
def isoTimePart : List Char → Option (List Char)
  | 'T' :: h1 :: h2 :: ':' :: mi1 :: mi2 :: ':' :: s1 :: s2 :: rest =>
    if [h1, h2, mi1, mi2, s1, s2].all Char.isDigit then some rest else none
  | _ => none

/-- UTC-offset part of the simplified ISO-8601 check. -/
def isoOffsetPart : List Char → Bool
  | [] => true
  | sign :: h1 :: h2 :: ':' :: m1 :: m2 :: [] =>
    (sign = '+' || sign = '-') && [h1, h2, m1, m2].all Char.isDigit
  | _ => false

/-- Simplified `datetime.fromisoformat` acceptance. -/
def isoParses (s : String) : Bool :=
  match isoDatePart s.toList with
  | none => false
  | some rest =>
    match rest with
    | [] => true
    | _ =>
      match isoTimePart rest with
      | none => false
      | some rest2 => isoOffsetPart rest2

/-- One guarded date block of `_convert_graph_email_to_model`: truthy string
values get `.replace('Z', '+00:00')` then `fromisoformat`; a parse failure
(`ValueError`) or a truthy non-string (`AttributeError` from `.replace`) is
caught and leaves the field `None`. -/
def parseGraphDate (v : Option JsonVal) : Option String :=
  match v with
  | some (.str s) =>
    if s != "" then
      if isoParses (s.replace "Z" "+00:00") then some (s.replace "Z" "+00:00")
      else none
    else none
  | _ => none

/-- The 22 top-level Graph keys explicitly mapped to named `Email` model
attributes (the exclusion list of the `graph_metadata` comprehension). -/
def mappedKeys : List String :=
  ["id", "internetMessageId", "subject", "from", "toRecipients",
   "ccRecipients", "bccRecipients", "body", "bodyPreview",
   "receivedDateTime", "sentDateTime", "createdDateTime",
   "lastModifiedDateTime", "importance", "isRead",
   "isReadReceiptRequested", "conversationId", "conversationIndex",
   "categories", "flag", "hasAttachments", "webLink"]

/-- The normalized `Email` model field values built by
`_convert_graph_email_to_model` (the `model_data` dict). -/
structure ModelData where
  email_account : String
  graph_id : JsonVal
  internet_message_id : JsonVal
  subject : JsonVal
  from_email : Option JsonVal
  to_emails : List JsonVal
  cc_emails : List JsonVal
  bcc_emails : List JsonVal
  body_text : JsonVal
  body_html : JsonVal
  body_preview : JsonVal
  date_received : Option String
  date_sent : Option String
  created_date_time : Option String
  last_modified_date_time : Option String
  importance : JsonVal
  is_read : JsonVal
  is_read_receipt_requested : JsonVal
  conversation_id : JsonVal
  conversation_index : JsonVal
  categories : JsonVal
  flag : JsonVal
  has_attachments : JsonVal
  web_link : JsonVal
  graph_metadata : List (String × JsonVal)
deriving Repr

/-- `EmailReaderService._convert_graph_email_to_model`. -/
def convert_graph_email_to_model (graph_email : RawMsg) (email_account : Account) :
    Except String ModelData := do
  let to_emails ← parse_email_addresses (dictGetD graph_email "toRecipients" (.arr []))
  let cc_emails ← parse_email_addresses (dictGetD graph_email "ccRecipients" (.arr []))
  let bcc_emails ← parse_email_addresses (dictGetD graph_email "bccRecipients" (.arr []))
  let from_email ← parseFrom (dictGetD graph_email "from" (.obj []))
  let body ← parse_email_body (dictGetD graph_email "body" (.obj []))
  .ok
    { email_account := email_account.email
      graph_id := dictGetD graph_email "id" (.str "")
      internet_message_id := dictGetD graph_email "internetMessageId" (.str "")
      subject := dictGetD graph_email "subject" (.str "")
      from_email := from_email
      to_emails := to_emails
      cc_emails := cc_emails
      bcc_emails := bcc_emails
      body_text := body.1
      body_html := body.2
      body_preview := dictGetD graph_email "bodyPreview" (.str "")
      date_received := parseGraphDate (dictGet graph_email "receivedDateTime")
      date_sent := parseGraphDate (dictGet graph_email "sentDateTime")
      created_date_time := parseGraphDate (dictGet graph_email "createdDateTime")
      last_modified_date_time := parseGraphDate (dictGet graph_email "lastModifiedDateTime")
      importance := dictGetD graph_email "importance" (.str "normal")
      is_read := dictGetD graph_email "isRead" (.bool false)
      is_read_receipt_requested := dictGetD graph_email "isReadReceiptRequested" (.bool false)
      conversation_id := dictGetD graph_email "conversationId" (.str "")
      conversation_index := dictGetD graph_email "conversationIndex" (.str "")
      categories := dictGetD graph_email "categories" (.arr [])
      flag := dictGetD graph_email "flag" (.obj [])
      has_attachments := dictGetD graph_email "hasAttachments" (.bool false)
      web_link := dictGetD graph_email "webLink" (.str "")
      graph_metadata := graph_email.filter (fun kv => !(mappedKeys.contains kv.1)) }

/-!
### Storage upsert and the per-account fetch loop

`Email.objects.update_or_create(graph_id=..., email_account=..., defaults=...)`
keys the lookup on the pair (account, Graph message id) and overwrites the
matched row's fields wholesale with `defaults`.  The database is a row list;
the page fetch and the possibility of a database error inside the atomic
per-message transaction are environment parameters.
-/

/-- A persisted `Email` row: its natural-key columns plus all field values. -/
structure EmailRow where
  email_account : String
  graph_id : JsonVal
  data : ModelData
deriving Repr

/-- The `email` table. -/
abbrev Store := List EmailRow

/-- The `update_or_create` lookup filter: `graph_id=... AND email_account=...`. -/
def rowMatches (acctEmail : String) (gid : JsonVal) (r : EmailRow) : Bool :=
  r.email_account == acctEmail && JsonVal.beq r.graph_id gid

/-- `Email.objects.update_or_create`: overwrite the matching row's fields
with `defaults`, or insert a new row; the flag is Django's `created`. -/
def update_or_create (st : Store) (acctEmail : String) (gid : JsonVal)
    (defaults : ModelData) : Store × Bool :=
  if st.any (rowMatches acctEmail gid) then
    (st.map (fun r => if rowMatches acctEmail gid r then { r with data := defaults } else r),
     false)
  else
    (st ++ [⟨acctEmail, gid, defaults⟩], true)

/-- First stored row under the natural key, if any. -/
def lookupRow (st : Store) (acctEmail : String) (gid : JsonVal) : Option EmailRow :=
  st.find? (rowMatches acctEmail gid)

/-- Number of stored rows under the natural key. -/
def countRows (st : Store) (acctEmail : String) (gid : JsonVal) : Nat :=
  (st.filter (rowMatches acctEmail gid)).length

/-- The result dict of `fetch_emails_for_account`.  The inactive-account
early return omits the `new_count`/`updated_count`/`errors` keys; absent
counters are modelled as zero and absent error lists as `[]`. -/
structure FetchResult where
  success : Bool
  count : Nat
  new_count : Nat
  updated_count : Nat
  errors : List String
  /-- the `'error'` key, set only by the inactive-account early return -/
  error : Option String
deriving Repr, DecidableEq

/-- The f-string `"Error processing message {graph_id}: {str(e)}"`. -/
def processErrMsg (gid : JsonVal) (e : String) : String :=
  "Error processing message " ++ pyStr gid ++ ": " ++ e

/-- Environment of an account fetch: `get_user_messages` (arguments `$top`,
`$skip`, `$filter`; errors are whatever `_make_request` raised after its own
retries) and a per-message database-failure oracle for the upsert's atomic
transaction (`none` = commit, `some msg` = raised exception). -/
structure FetchEnv where
  getUserMessages : Nat → Nat → Option String → Except String (List RawMsg)
  dbFail : RawMsg → Option String

/-- One iteration of the per-message loop (`try: with transaction.atomic():`):
skip silently without an id; a normalization or upsert exception is caught,
recorded and skipped; a successful upsert bumps `new_count` or
`updated_count` plus `count` and `total_fetched`. -/
def processMessage (env : FetchEnv) (acct : Account)
    (acc : Store × FetchResult × Nat) (m : RawMsg) : Store × FetchResult × Nat :=
  let (st, res, totalFetched) := acc
  match dictGet m "id" with
  | none => (st, res, totalFetched)
  | some gid =>
    if !(pyTruthy gid) then (st, res, totalFetched)
    else
      match convert_graph_email_to_model m acct with
      | .error e =>
        (st, { res with errors := res.errors ++ [processErrMsg gid e] }, totalFetched)
      | .ok defaults =>
        match env.dbFail m with
        | some e =>
          (st, { res with errors := res.errors ++ [processErrMsg gid e] }, totalFetched)
        | none =>
          let u := update_or_create st acct.email gid defaults
          (u.1,
           { res with
             new_count := if u.2 then res.new_count + 1 else res.new_count
             updated_count := if u.2 then res.updated_count else res.updated_count + 1
             count := res.count + 1 },
           totalFetched + 1)

/-- `for message_data in messages:` over one page. -/
def processMessages (env : FetchEnv) (acct : Account) (messages : List RawMsg)
    (acc : Store × FetchResult × Nat) : Store × FetchResult × Nat :=
  messages.foldl (processMessage env acct) acc

/-- `(limit and total_fetched >= limit)` with Python truthiness of `limit`. -/
def limitReached (limit : Option Nat) (tot : Nat) : Bool :=
  match limit with
  | some l => decide (0 < l) && decide (l ≤ tot)
  | none => false

/-- The `while True` pagination loop of `fetch_emails_for_account`, with
explicit fuel (insufficient fuel merely cuts the loop short; theorems
supply enough).  Per iteration: request a page of `min(top, 100)` at
`skip`; a page-fetch error is recorded and flips `success` (fatal); an
empty page stops; after processing, stop when the page is shorter than
`top` (note: the uncapped value) or the limit is reached, else advance
`skip`. -/
def fetchLoop (env : FetchEnv) (acct : Account) (top : Nat) (limit : Option Nat)
    (filterQ : Option String) :
    Nat → Nat → Nat → Store → Nat → FetchResult → FetchResult × Store × Nat
  | 0, _skip, _tot, st, calls, res => (res, st, calls)
  | fuel + 1, skip, totalFetched, st, calls, res =>
    match env.getUserMessages (min top 100) skip filterQ with
    | .error e =>
      ({ res with errors := res.errors ++ ["Error fetching messages: " ++ e],
                  success := false }, st, calls + 1)
    | .ok messages =>
      if messages.isEmpty then (res, st, calls + 1)
      else
        let a := processMessages env acct messages (st, res, totalFetched)
        if messages.length < top || limitReached limit a.2.2 then
          (a.2.1, a.1, calls + 1)
        else
          fetchLoop env acct top limit filterQ fuel (skip + messages.length) a.2.2
            a.1 (calls + 1) a.2.1

/-- Mutable state an account fetch touches: the `email` table, the account
row, plus instrumentation (network page requests, the completion-time
clock, and the number of `account.save` sync-status writes). -/
structure World where
  store : Store
  account : Account
  networkCalls : Nat
  /-- what `timezone.now()` returns at the sync-status write -/
  now : Nat
  syncSaves : Nat
deriving Repr

/-- The sync-status block: on success set `last_synced = now` and clear
`sync_error`; otherwise set `sync_error` to the first three error strings
joined by `'; '`. -/
def applySyncStatus (res : FetchResult) (acct : Account) (now : Nat) : Account :=
  if res.success then
    { acct with last_synced := some now, sync_error := none }
  else
    { acct with sync_error := some (String.intercalate "; " (res.errors.take 3)) }

/-- `EmailReaderService.fetch_emails_for_account`.  An inactive account
returns `{'success': False, 'error': ..., 'count': 0}` with no other
effect; otherwise the pagination loop runs with
`top = limit if limit else 100` and the sync-status write always follows
(`update_fields=['last_synced', 'sync_error']`), counted in `syncSaves`. -/
def fetch_emails_for_account (env : FetchEnv) (limit : Option Nat)
    (since : Option String) (fuel : Nat) (w : World) : FetchResult × World :=
  if !w.account.is_active then
    ({ success := false, count := 0, new_count := 0, updated_count := 0,
       errors := [], error := some "Email account is not active" }, w)
  else
    let filterQ := since.map (fun s => "receivedDateTime gt " ++ s)
    let top := match limit with | some l => if 0 < l then l else 100 | none => 100
    let res0 : FetchResult :=
      { success := true, count := 0, new_count := 0, updated_count := 0,
        errors := [], error := none }
    let t := fetchLoop env w.account top limit filterQ fuel 0 0 w.store w.networkCalls res0
    (t.1,
     { w with store := t.2.1, networkCalls := t.2.2,
              account := applySyncStatus t.1 w.account w.now,
              syncSaves := w.syncSaves + 1 })

/-!
## Theorems

First the retry-loop and token lemmas (claims C2, C4, C5, C8), then the
orchestrator claims (C1, C3, C6, C7, C9, C10).
-/

/-- Behaviour of the loop when every attempt sees the same non-429/401
error status: `raise_for_status`'s `HTTPError` is a `RequestException`, so
each attempt backs off and retries until the budget runs out. -/
lemma makeRequestAux_const_error (responses : Nat → HttpResp) (c : Nat)
    (h : ∀ i, responses i = .status c none)
    (h429 : c ≠ 429) (h401 : c ≠ 401) (hge : 400 ≤ c) (rc : Nat) :
    ∀ remaining, 0 < remaining → ∀ tr : ReqTrace,
      (makeRequestAux responses rc remaining tr).1 = .failure "Graph API request failed" ∧
      (makeRequestAux responses rc remaining tr).2.httpAttempts = tr.httpAttempts + remaining := by
  intro remaining
  induction remaining with
  | zero => intro h0; exact absurd h0 (lt_irrefl 0)
  | succ m ih =>
    intro _ tr
    rcases Nat.eq_zero_or_pos m with hm | hm
    · subst hm
      simp [makeRequestAux, h, h429, h401, hge]
    · have ihm := ih hm
      simp only [makeRequestAux, h, if_neg h429, if_neg h401, if_pos hge, if_pos hm]
      refine ⟨(ihm _).1, ?_⟩
      rw [(ihm _).2]
      simp
      omega

/-- Behaviour of the loop when every attempt sees a 401: each iteration
clears the token cache, re-acquires and continues, so the whole budget is
spent re-acquiring; no sleep occurs on this path. -/
lemma makeRequestAux_const_401 (responses : Nat → HttpResp) (ras : Nat → Option Nat)
    (h : ∀ i, responses i = .status 401 (ras i)) (rc : Nat) :
    ∀ remaining, ∀ tr : ReqTrace,
      makeRequestAux responses rc remaining tr =
        (.failure ("Failed to complete request after " ++ toString rc ++ " attempts"),
         { httpAttempts := tr.httpAttempts + remaining, sleeps := tr.sleeps,
           tokenReacquisitions := tr.tokenReacquisitions + remaining }) := by
  intro remaining
  induction remaining with
  | zero => intro tr; simp [makeRequestAux]
  | succ m ih =>
    intro tr
    simp only [makeRequestAux, h]
    norm_num
    rw [ih]
    simp only [Prod.mk.injEq, ReqTrace.mk.injEq]
    simp
    omega

/-- Behaviour of the loop when every attempt sees a 429: each iteration
sleeps the `Retry-After` value and continues, consuming one attempt of the
budget, until the budget runs out. -/
lemma makeRequestAux_const_429 (responses : Nat → HttpResp) (ras : Nat → Option Nat)
    (h : ∀ i, responses i = .status 429 (ras i)) (rc : Nat) :
    ∀ remaining, ∀ tr : ReqTrace,
      (makeRequestAux responses rc remaining tr).1 =
        .failure ("Failed to complete request after " ++ toString rc ++ " attempts") ∧
      (makeRequestAux responses rc remaining tr).2.httpAttempts =
        tr.httpAttempts + remaining := by
  intro remaining
  induction remaining with
  | zero => intro tr; simp [makeRequestAux]
  | succ m ih =>
    intro tr
    simp only [makeRequestAux, h]
    norm_num
    refine ⟨(ih _).1, ?_⟩
    rw [(ih _).2]
    simp
    omega

/-- C2 counterexample: with every attempt answering HTTP 500, the call makes
3 HTTP attempts with two exponential-backoff sleeps — the non-429/401 error
status is not raised immediately and is retried, because `raise_for_status`'s
`HTTPError` is a `RequestException` and lands in the retry handler. -/
theorem C2_counterexample :
    (makeRequest (fun _ => .status 500 none) 3).2.httpAttempts = 3 ∧
    (makeRequest (fun _ => .status 500 none) 3).2.httpAttempts ≠ 1 ∧
    (makeRequest (fun _ => .status 500 none) 3).2.sleeps = [.backoff 1, .backoff 2] := by
  decide

/-- C2 (amended): a response with a non-success HTTP status other than 429
and 401 is caught as a `RequestException` and retried with exponential
backoff; only after the attempt budget is exhausted does the call raise
`"Graph API request failed"`. -/
theorem C2_amended_error_status_retried (responses : Nat → HttpResp)
    (c n : Nat) (h : ∀ i, responses i = .status c none)
    (h429 : c ≠ 429) (h401 : c ≠ 401) (hge : 400 ≤ c) (hn : 0 < n) :
    (makeRequest responses n).1 = .failure "Graph API request failed" ∧
    (makeRequest responses n).2.httpAttempts = n := by
  have := makeRequestAux_const_error responses c h h429 h401 hge n n hn ⟨0, [], 0⟩
  simpa [makeRequest] using this

/-- C2 witness: three HTTP 503 responses exhaust a budget of 3. -/
theorem C2_witness :
    (makeRequest (fun _ => .status 503 none) 3).1 = .failure "Graph API request failed" ∧
    (makeRequest (fun _ => .status 503 none) 3).2.httpAttempts = 3 :=
  C2_amended_error_status_retried (fun _ => .status 503 none) 503 3
    (fun _ => rfl) (by decide) (by decide) (by decide) (by decide)

/-- C4 counterexample: with HTTP 401 on every attempt and the default budget
of 3, the call performs 3 token re-acquisitions and 3 HTTP attempts before
giving up — not exactly one re-acquisition and one retry. -/
theorem C4_counterexample :
    (makeRequest (fun _ => .status 401 none) 3).2.tokenReacquisitions = 3 ∧
    ¬ (makeRequest (fun _ => .status 401 none) 3).2.tokenReacquisitions = 1 ∧
    (makeRequest (fun _ => .status 401 none) 3).2.httpAttempts = 3 := by
  decide

/-- C4 (amended): every 401 attempt invalidates the cache, re-acquires a
token and retries immediately (no sleep); with 401 on every attempt the
call spends its whole budget of `n` attempts, performing `n`
re-acquisitions, before raising the budget-exhausted error. -/
theorem C4_amended_each_401_reacquires (responses : Nat → HttpResp)
    (ras : Nat → Option Nat) (n : Nat)
    (h : ∀ i, responses i = .status 401 (ras i)) :
    makeRequest responses n =
      (.failure ("Failed to complete request after " ++ toString n ++ " attempts"),
       { httpAttempts := n, sleeps := [], tokenReacquisitions := n }) := by
  have := makeRequestAux_const_401 responses ras h n n ⟨0, [], 0⟩
  simpa [makeRequest] using this

/-- C4 witness: two all-401 attempts with a budget of 2. -/
theorem C4_witness :
    makeRequest (fun _ => .status 401 none) 2 =
      (.failure ("Failed to complete request after " ++ toString 2 ++ " attempts"),
       { httpAttempts := 2, sleeps := [], tokenReacquisitions := 2 }) :=
  C4_amended_each_401_reacquires (fun _ => .status 401 none) (fun _ => none) 2
    (fun _ => rfl)

/-- C5 counterexample: three 429 responses followed by an available success
still fail the call after exactly 3 attempts — each rate-limited attempt
consumes one attempt of the budget, so 429s are not retried indefinitely
within it. -/
theorem C5_counterexample :
    (makeRequest (fun i => if i < 3 then .status 429 (some 5) else .ok) 3).1 ≠ .success ∧
    (makeRequest (fun i => if i < 3 then .status 429 (some 5) else .ok) 3).2.httpAttempts = 3 ∧
    (makeRequest (fun i => if i < 3 then .status 429 (some 5) else .ok) 3).2.sleeps =
      [.rateLimit 5, .rateLimit 5, .rateLimit 5] := by
  decide

/-- C5 (amended): a 429 sleeps the `Retry-After` value (60 when the header
is absent), performs no exponential-backoff sleep, and the next attempt
proceeds (a following success succeeds the call); however each rate-limited
attempt consumes one attempt of the budget, so `n` consecutive 429s exhaust
a budget of `n` and raise the budget-exhausted error. -/
theorem C5_amended_429_sleeps_but_consumes_budget :
    (∀ (responses : Nat → HttpResp) (ra : Option Nat) (n : Nat), 2 ≤ n →
      responses 0 = .status 429 ra → responses 1 = .ok →
      makeRequest responses n = (.success, ⟨2, [.rateLimit (ra.getD 60)], 0⟩)) ∧
    (∀ (responses : Nat → HttpResp) (ras : Nat → Option Nat) (n : Nat),
      (∀ i, responses i = .status 429 (ras i)) →
      (makeRequest responses n).1 =
        .failure ("Failed to complete request after " ++ toString n ++ " attempts") ∧
      (makeRequest responses n).2.httpAttempts = n) := by
  constructor
  · intro responses ra n hn h0 h1
    obtain ⟨m, rfl⟩ : ∃ m, n = m + 2 := ⟨n - 2, by omega⟩
    have e1 : (m + 2) - (m + 2) = 0 := by omega
    have e2 : (m + 2) - (m + 1) = 1 := by omega
    simp [makeRequest, makeRequestAux, e1, e2, h0, h1]
  · intro responses ras n h
    have := makeRequestAux_const_429 responses ras h n n ⟨0, [], 0⟩
    simpa [makeRequest] using this

/-- C5 witness: a 429 with `Retry-After: 5` then a success, budget 3. -/
theorem C5_witness :
    2 ≤ 3 ∧
    makeRequest (fun i => if i = 0 then .status 429 (some 5) else .ok) 3 =
      (.success, ⟨2, [.rateLimit 5], 0⟩) :=
  ⟨by decide,
   C5_amended_429_sleeps_but_consumes_budget.1
     (fun i => if i = 0 then .status 429 (some 5) else .ok) (some 5) 3
     (by decide) rfl rfl⟩

/-- C8 counterexample: with a warm token cache, `get_access_token` returns
the cached token even though `client_id` is absent — the call neither fails
with the configuration error nor attempts the exchange. -/
theorem C8_counterexample :
    isAuthConfigFailure (get_access_token ⟨"", "secret", "tenant"⟩
      (some ("cached-token", 3300)) (.reqError "network down")).outcome = false ∧
    (get_access_token ⟨"", "secret", "tenant"⟩
      (some ("cached-token", 3300)) (.reqError "network down")).outcome =
      Except.ok "cached-token" ∧
    (get_access_token ⟨"", "secret", "tenant"⟩
      (some ("cached-token", 3300)) (.reqError "network down")).exchangeCalls = 0 :=
  ⟨rfl, rfl, rfl⟩

/-- C8 (amended): on a cache miss (no cached token, or a falsy cached one),
a call with any of the three credential fields absent fails with the
configuration `ValueError` and performs no network token exchange. -/
theorem C8_amended_missing_credentials_fatal_on_cache_miss :
    (∀ (cfg : AzureConfig) (exchange : TokenExchange),
      cfg.client_id = "" ∨ cfg.client_secret = "" ∨ cfg.tenant_id = "" →
      get_access_token cfg none exchange = ⟨.error .authConfigError, none, 0⟩) ∧
    (∀ (cfg : AzureConfig) (exchange : TokenExchange) (t : Int),
      cfg.client_id = "" ∨ cfg.client_secret = "" ∨ cfg.tenant_id = "" →
      get_access_token cfg (some ("", t)) exchange = ⟨.error .authConfigError, none, 0⟩) := by
  constructor
  · intro cfg exchange h
    simp [get_access_token, get_access_token.getFresh, if_pos h]
  · intro cfg exchange t h
    simp [get_access_token, get_access_token.getFresh, if_pos h]

/-- C8 witness: empty `client_id`, empty cache, exchange available. -/
theorem C8_witness :
    get_access_token ⟨"", "secret", "tenant"⟩ none (.ok "tok" 3600) =
      ⟨.error .authConfigError, none, 0⟩ :=
  C8_amended_missing_credentials_fatal_on_cache_miss.1
    ⟨"", "secret", "tenant"⟩ (.ok "tok" 3600) (Or.inl rfl)

/-- Lookup in an association list filtered by a key predicate. -/
lemma dictGet_filterKeys (p : String → Bool) (m : RawMsg) (k : String) :
    dictGet (m.filter (fun kv => p kv.1)) k = if p k then dictGet m k else none := by
  induction m with
  | nil => simp [dictGet]
  | cons hd tl ih =>
    obtain ⟨k', v⟩ := hd
    by_cases hp : p k'
    · by_cases hk : k' = k
      · subst hk; simp [dictGet, List.filter_cons, hp]
      · simp [dictGet, List.filter_cons, hp, hk, ih]
    · by_cases hk : k' = k
      · subst hk; simp [dictGet, List.filter_cons, hp, ih]
      · simp [dictGet, List.filter_cons, hp, hk, ih]

/-- A successful normalization's overflow map is exactly the raw payload
restricted to unmapped keys. -/
lemma convert_ok_graph_metadata (m : RawMsg) (a : Account) (md : ModelData)
    (h : convert_graph_email_to_model m a = .ok md) :
    md.graph_metadata = m.filter (fun kv => !decide (kv.1 ∈ mappedKeys)) := by
  unfold convert_graph_email_to_model at h
  cases h1 : parse_email_addresses (dictGetD m "toRecipients" (.arr [])) with
  | error e => rw [h1] at h; simp [Bind.bind, Except.bind] at h
  | ok v1 =>
  rw [h1] at h
  cases h2 : parse_email_addresses (dictGetD m "ccRecipients" (.arr [])) with
  | error e => rw [h2] at h; simp [Bind.bind, Except.bind] at h
  | ok v2 =>
  rw [h2] at h
  cases h3 : parse_email_addresses (dictGetD m "bccRecipients" (.arr [])) with
  | error e => rw [h3] at h; simp [Bind.bind, Except.bind] at h
  | ok v3 =>
  rw [h3] at h
  cases h4 : parseFrom (dictGetD m "from" (.obj [])) with
  | error e => rw [h4] at h; simp [Bind.bind, Except.bind] at h
  | ok v4 =>
  rw [h4] at h
  cases h5 : parse_email_body (dictGetD m "body" (.obj [])) with
  | error e => rw [h5] at h; simp [Bind.bind, Except.bind] at h
  | ok v5 =>
  rw [h5] at h
  simp [Bind.bind, Except.bind] at h
  rw [← h]

/-- C9: every top-level field of a raw payload whose key is not one of the
22 explicitly mapped attribute names is preserved verbatim, under its
original key, in the normalized record's overflow map `graph_metadata`; no
mapped key appears there. -/
theorem C9_overflow_preserved (m : RawMsg) (a : Account) (md : ModelData) (k : String)
    (h : convert_graph_email_to_model m a = .ok md) :
    (k ∉ mappedKeys → dictGet md.graph_metadata k = dictGet m k) ∧
    (k ∈ mappedKeys → dictGet md.graph_metadata k = none) := by
  rw [convert_ok_graph_metadata m a md h]
  rw [dictGet_filterKeys (fun k => !decide (k ∈ mappedKeys)) m k]
  constructor
  · intro hk; simp [hk]
  · intro hk; simp [hk]

/-- A raw message with an unrecognized top-level field. -/
def c9Msg : RawMsg :=
  [("id", .str "g9"), ("subject", .str "hello"), ("futureField", .num 42)]

/-- An active account for the concrete runs. -/
def c9Acct : Account :=
  { email := "a@b.c", is_active := true, last_synced := none, sync_error := none }

/-- An arbitrary `ModelData` used only as a `getD` default. -/
def mdDefault : ModelData where
  email_account := ""
  graph_id := .str ""
  internet_message_id := .str ""
  subject := .str ""
  from_email := none
  to_emails := []
  cc_emails := []
  bcc_emails := []
  body_text := .str ""
  body_html := .str ""
  body_preview := .str ""
  date_received := none
  date_sent := none
  created_date_time := none
  last_modified_date_time := none
  importance := .str "normal"
  is_read := .bool false
  is_read_receipt_requested := .bool false
  conversation_id := .str ""
  conversation_index := .str ""
  categories := .arr []
  flag := .obj []
  has_attachments := .bool false
  web_link := .str ""
  graph_metadata := []

/-- The normalized record of `c9Msg` (normalization succeeds on it). -/
def c9Md : ModelData :=
  ((convert_graph_email_to_model c9Msg c9Acct).toOption).getD mdDefault

/-- C9 witness: the unmapped field `futureField` survives verbatim and the
mapped key `subject` is excluded from the overflow map. -/
theorem C9_witness :
    dictGet c9Md.graph_metadata "futureField" = some (.num 42) ∧
    dictGet c9Md.graph_metadata "subject" = none :=
  have hc : convert_graph_email_to_model c9Msg c9Acct = .ok c9Md := rfl
  ⟨(C9_overflow_preserved c9Msg c9Acct c9Md "futureField" hc).1 (by decide),
   (C9_overflow_preserved c9Msg c9Acct c9Md "subject" hc).2 (by decide)⟩

/-- C6: on an account with `is_active = false`, `fetch_emails_for_account`
returns immediately with `success = false` and zero counts, performs zero
network calls and leaves the whole world — store, account sync-health
fields, save counter — unchanged. -/
theorem C6_inactive_account_noop (env : FetchEnv) (limit : Option Nat)
    (since : Option String) (fuel : Nat) (w : World)
    (h : w.account.is_active = false) :
    fetch_emails_for_account env limit since fuel w =
      ({ success := false, count := 0, new_count := 0, updated_count := 0,
         errors := [], error := some "Email account is not active" }, w) := by
  simp [fetch_emails_for_account, h]

/-- An environment whose every page is empty and whose database never
fails. -/
def emptyEnv : FetchEnv :=
  { getUserMessages := fun _ _ _ => .ok [], dbFail := fun _ => none }

/-- A world holding an inactive account with existing sync-health values. -/
def inactiveW : World :=
  { store := [],
    account := { email := "dms-demo@india-alt.com", is_active := false,
                 last_synced := some 5, sync_error := some "previous failure" },
    networkCalls := 0, now := 9, syncSaves := 0 }

/-- C6 witness: concrete inactive account, world returned untouched. -/
theorem C6_witness :
    fetch_emails_for_account emptyEnv none none 3 inactiveW =
      ({ success := false, count := 0, new_count := 0, updated_count := 0,
         errors := [], error := some "Email account is not active" }, inactiveW) :=
  C6_inactive_account_noop emptyEnv none none 3 inactiveW rfl

/-- C7: on an active account the sync-status write executes on every exit
path (exactly one `account.save`): on success `last_synced` is set to the
completion time and `sync_error` cleared; on failure `sync_error` is set to
the first three collected error messages joined by `'; '` while
`last_synced` keeps its previous value. -/
theorem C7_sync_status_always_written (env : FetchEnv) (limit : Option Nat)
    (since : Option String) (fuel : Nat) (w : World)
    (h : w.account.is_active = true) :
    (fetch_emails_for_account env limit since fuel w).2.syncSaves = w.syncSaves + 1 ∧
    ((fetch_emails_for_account env limit since fuel w).1.success = true →
      (fetch_emails_for_account env limit since fuel w).2.account.last_synced = some w.now ∧
      (fetch_emails_for_account env limit since fuel w).2.account.sync_error = none) ∧
    ((fetch_emails_for_account env limit since fuel w).1.success = false →
      (fetch_emails_for_account env limit since fuel w).2.account.sync_error =
        some (String.intercalate "; "
          ((fetch_emails_for_account env limit since fuel w).1.errors.take 3)) ∧
      (fetch_emails_for_account env limit since fuel w).2.account.last_synced =
        w.account.last_synced) := by
  simp only [fetch_emails_for_account, h, Bool.not_true, Bool.false_eq_true, if_false]
  refine ⟨trivial, ?_, ?_⟩
  · intro hs
    simp [applySyncStatus, hs]
  · intro hs
    simp [applySyncStatus, hs]

/-- A world holding an active account. -/
def activeW : World :=
  { store := [],
    account := { email := "ops@india-alt.com", is_active := true,
                 last_synced := none, sync_error := none },
    networkCalls := 0, now := 21, syncSaves := 4 }

/-- C7 witness: a run over an empty mailbox writes the sync status once. -/
theorem C7_witness :
    (fetch_emails_for_account emptyEnv none none 3 activeW).2.syncSaves = activeW.syncSaves + 1 ∧
    ((fetch_emails_for_account emptyEnv none none 3 activeW).1.success = true →
      (fetch_emails_for_account emptyEnv none none 3 activeW).2.account.last_synced = some activeW.now ∧
      (fetch_emails_for_account emptyEnv none none 3 activeW).2.account.sync_error = none) ∧
    ((fetch_emails_for_account emptyEnv none none 3 activeW).1.success = false →
      (fetch_emails_for_account emptyEnv none none 3 activeW).2.account.sync_error =
        some (String.intercalate "; "
          ((fetch_emails_for_account emptyEnv none none 3 activeW).1.errors.take 3)) ∧
      (fetch_emails_for_account emptyEnv none none 3 activeW).2.account.last_synced =
        activeW.account.last_synced) :=
  C7_sync_status_always_written emptyEnv none none 3 activeW rfl

/-- One message step preserves `count = new_count + updated_count`. -/
lemma processMessage_count_inv (env : FetchEnv) (a : Account)
    (acc : Store × FetchResult × Nat) (m : RawMsg)
    (h : acc.2.1.count = acc.2.1.new_count + acc.2.1.updated_count) :
    (processMessage env a acc m).2.1.count =
      (processMessage env a acc m).2.1.new_count +
        (processMessage env a acc m).2.1.updated_count := by
  obtain ⟨st, res, tot⟩ := acc
  simp only [processMessage]
  cases hg : dictGet m "id" with
  | none => simpa using h
  | some gid =>
    by_cases ht : pyTruthy gid
    · simp only [ht, Bool.not_true, Bool.false_eq_true, if_false]
      cases hc : convert_graph_email_to_model m a with
      | error e => simpa using h
      | ok d =>
        cases hdb : env.dbFail m with
        | some e => simpa using h
        | none =>
          simp only []
          cases hu : (update_or_create st a.email gid d).2 <;> simp at h ⊢ <;> omega
    · simp only [ht, Bool.not_false, if_true]
      simpa using h

/-- A whole page preserves `count = new_count + updated_count`. -/
lemma processMessages_count_inv (env : FetchEnv) (a : Account) (messages : List RawMsg) :
    ∀ acc : Store × FetchResult × Nat,
      acc.2.1.count = acc.2.1.new_count + acc.2.1.updated_count →
      (processMessages env a messages acc).2.1.count =
        (processMessages env a messages acc).2.1.new_count +
          (processMessages env a messages acc).2.1.updated_count := by
  induction messages with
  | nil => intro acc h; simpa [processMessages] using h
  | cons m rest ih =>
    intro acc h
    have h1 := processMessage_count_inv env a acc m h
    simpa [processMessages, List.foldl_cons] using ih _ h1

/-- The pagination loop preserves `count = new_count + updated_count`. -/
lemma fetchLoop_count_inv (env : FetchEnv) (a : Account) (top : Nat)
    (limit : Option Nat) (fq : Option String) :
    ∀ fuel skip tot st calls res,
      (res : FetchResult).count = res.new_count + res.updated_count →
      (fetchLoop env a top limit fq fuel skip tot st calls res).1.count =
        (fetchLoop env a top limit fq fuel skip tot st calls res).1.new_count +
          (fetchLoop env a top limit fq fuel skip tot st calls res).1.updated_count := by
  intro fuel
  induction fuel with
  | zero => intro skip tot st calls res h; simpa [fetchLoop] using h
  | succ f ih =>
    intro skip tot st calls res h
    simp only [fetchLoop]
    cases hp : env.getUserMessages (min top 100) skip fq with
    | error e => simpa using h
    | ok messages =>
      by_cases he : messages.isEmpty
      · simpa [he] using h
      · simp only [he, Bool.false_eq_true, if_false]
        have hinv := processMessages_count_inv env a messages (st, res, tot) h
        by_cases hstop :
            (messages.length < top || limitReached limit
              (processMessages env a messages (st, res, tot)).2.2) = true
        · simpa [hstop] using hinv
        · simp only [hstop, Bool.false_eq_true, if_false]
          exact ih _ _ _ _ _ hinv

/-- C10: on an active account the returned result satisfies
`count = new_count + updated_count`; a successfully upserted message bumps
`count` and exactly one of `new_count`/`updated_count` by one; a message
without a truthy external id changes nothing; a message whose
normalization or upsert raises changes no count and no store row. -/
theorem C10_count_discipline :
    (∀ (env : FetchEnv) (limit : Option Nat) (since : Option String) (fuel : Nat) (w : World),
      w.account.is_active = true →
      (fetch_emails_for_account env limit since fuel w).1.count =
        (fetch_emails_for_account env limit since fuel w).1.new_count +
          (fetch_emails_for_account env limit since fuel w).1.updated_count) ∧
    (∀ (env : FetchEnv) (a : Account) (st : Store) (res : FetchResult) (tot : Nat)
        (m : RawMsg) (gid : JsonVal) (d : ModelData),
      dictGet m "id" = some gid → pyTruthy gid = true →
      convert_graph_email_to_model m a = .ok d → env.dbFail m = none →
      (processMessage env a (st, res, tot) m).2.1.count = res.count + 1 ∧
      (processMessage env a (st, res, tot) m).2.1.new_count +
          (processMessage env a (st, res, tot) m).2.1.updated_count =
        res.new_count + res.updated_count + 1 ∧
      ((processMessage env a (st, res, tot) m).2.1.new_count = res.new_count + 1 ∧
          (processMessage env a (st, res, tot) m).2.1.updated_count = res.updated_count ∨
        (processMessage env a (st, res, tot) m).2.1.new_count = res.new_count ∧
          (processMessage env a (st, res, tot) m).2.1.updated_count = res.updated_count + 1)) ∧
    (∀ (env : FetchEnv) (a : Account) (acc : Store × FetchResult × Nat) (m : RawMsg),
      pyTruthyOpt (dictGet m "id") = false →
      processMessage env a acc m = acc) ∧
    (∀ (env : FetchEnv) (a : Account) (st : Store) (res : FetchResult) (tot : Nat)
        (m : RawMsg) (gid : JsonVal),
      dictGet m "id" = some gid → pyTruthy gid = true →
      ((∃ e, convert_graph_email_to_model m a = .error e) ∨
        (∃ e, env.dbFail m = some e)) →
      (processMessage env a (st, res, tot) m).1 = st ∧
      (processMessage env a (st, res, tot) m).2.1.count = res.count ∧
      (processMessage env a (st, res, tot) m).2.1.new_count = res.new_count ∧
      (processMessage env a (st, res, tot) m).2.1.updated_count = res.updated_count) := by
  refine ⟨?_, ?_, ?_, ?_⟩
  · intro env limit since fuel w h
    simp only [fetch_emails_for_account, h, Bool.not_true, Bool.false_eq_true, if_false]
    exact fetchLoop_count_inv env w.account _ limit _ fuel 0 0 w.store w.networkCalls _ rfl
  · intro env a st res tot m gid d hid ht hc hdb
    simp only [processMessage, hid, ht, hc, hdb, Bool.not_true, Bool.false_eq_true, if_false]
    cases hu : (update_or_create st a.email gid d).2 <;> simp <;> omega
  · intro env a acc m hid
    obtain ⟨st, res, tot⟩ := acc
    simp only [processMessage]
    cases hg : dictGet m "id" with
    | none => rfl
    | some gid =>
      rw [hg] at hid
      simp only [pyTruthyOpt] at hid
      simp [hid]
  · intro env a st res tot m gid hid ht herr
    rcases herr with ⟨e, he⟩ | ⟨e, he⟩
    · simp [processMessage, hid, ht, he]
    · cases hc : convert_graph_email_to_model m a with
      | error e2 => simp [processMessage, hid, ht, hc]
      | ok d => simp [processMessage, hid, ht, hc, he]

/-- An environment whose upserts always raise a database error. -/
def failEnv : FetchEnv :=
  { getUserMessages := fun _ _ _ => .ok [], dbFail := fun _ => some "db down" }

/-- C10 witness: the four parts at concrete inputs — an empty-mailbox run,
a successful upsert of `c9Msg`, an id-less payload, a failing upsert. -/
theorem C10_witness :
    ((fetch_emails_for_account emptyEnv none none 1 activeW).1.count =
      (fetch_emails_for_account emptyEnv none none 1 activeW).1.new_count +
        (fetch_emails_for_account emptyEnv none none 1 activeW).1.updated_count) ∧
    ((processMessage emptyEnv c9Acct ([], ⟨true, 2, 1, 1, [], none⟩, 0) c9Msg).2.1.count = 2 + 1) ∧
    (processMessage emptyEnv c9Acct ([], ⟨true, 2, 1, 1, [], none⟩, 0)
      [("subject", JsonVal.str "x")] = ([], ⟨true, 2, 1, 1, [], none⟩, 0)) ∧
    ((processMessage failEnv c9Acct ([], ⟨true, 2, 1, 1, [], none⟩, 0) c9Msg).2.1.count = 2) :=
  ⟨C10_count_discipline.1 emptyEnv none none 1 activeW rfl,
   (C10_count_discipline.2.1 emptyEnv c9Acct [] ⟨true, 2, 1, 1, [], none⟩ 0 c9Msg
      (.str "g9") c9Md rfl rfl rfl rfl).1,
   C10_count_discipline.2.2.1 emptyEnv c9Acct ([], ⟨true, 2, 1, 1, [], none⟩, 0)
      [("subject", JsonVal.str "x")] rfl,
   (C10_count_discipline.2.2.2 failEnv c9Acct [] ⟨true, 2, 1, 1, [], none⟩ 0 c9Msg
      (.str "g9") rfl rfl (Or.inr ⟨"db down", rfl⟩)).2.1⟩

/-- One message step grows `count` by at most one. -/
lemma processMessage_count_le (env : FetchEnv) (a : Account)
    (acc : Store × FetchResult × Nat) (m : RawMsg) :
    (processMessage env a acc m).2.1.count ≤ acc.2.1.count + 1 := by
  obtain ⟨st, res, tot⟩ := acc
  simp only [processMessage]
  cases hg : dictGet m "id" with
  | none => simp
  | some gid =>
    by_cases ht : pyTruthy gid
    · simp only [ht, Bool.not_true, Bool.false_eq_true, if_false]
      cases hc : convert_graph_email_to_model m a with
      | error e => simp
      | ok d =>
        cases hdb : env.dbFail m with
        | some e => simp
        | none => simp
    · simp [ht]

/-- A page of `n` messages grows `count` by at most `n`. -/
lemma processMessages_count_le (env : FetchEnv) (a : Account) (messages : List RawMsg) :
    ∀ acc : Store × FetchResult × Nat,
      (processMessages env a messages acc).2.1.count ≤ acc.2.1.count + messages.length := by
  induction messages with
  | nil => intro acc; simp [processMessages]
  | cons m rest ih =>
    intro acc
    have h1 := processMessage_count_le env a acc m
    have h2 := ih (processMessage env a acc m)
    simp only [processMessages, List.foldl_cons] at h2 ⊢
    calc (processMessages env a rest (processMessage env a acc m)).2.1.count
        ≤ (processMessage env a acc m).2.1.count + rest.length := h2
      _ ≤ acc.2.1.count + 1 + rest.length := by omega
      _ = acc.2.1.count + (rest.length + 1) := by omega
      _ = acc.2.1.count + (m :: rest).length := by simp

/-- C3 (amended): the stop check compares the page length against the
uncapped `top = limit` value while the request itself is capped at 100, so
with `limit > 100` (pages honoring the 100 cap) exactly one page is ever
requested and at most 100 messages are fetched — pagination otherwise stops
on an error page, an empty page, a short page, or a reached limit. -/
theorem C3_amended_limit_over_100_single_page (env : FetchEnv) (l : Nat)
    (since : Option String) (fuel : Nat) (w : World)
    (hactive : w.account.is_active = true) (hl : 100 < l)
    (hbound : ∀ skip f ms, env.getUserMessages 100 skip f = .ok ms → ms.length ≤ 100) :
    (fetch_emails_for_account env (some l) since (fuel + 1) w).2.networkCalls =
      w.networkCalls + 1 ∧
    (fetch_emails_for_account env (some l) since (fuel + 1) w).1.count ≤ 100 := by
  have hl0 : (0 : Nat) < l := by omega
  have hmin : min l 100 = 100 := Nat.min_eq_right (Nat.le_of_lt hl)
  simp only [fetch_emails_for_account, hactive, Bool.not_true, Bool.false_eq_true, if_false,
    hl0, if_true, fetchLoop, hmin]
  cases hp : env.getUserMessages 100 0 (since.map (fun s => "receivedDateTime gt " ++ s)) with
  | error e => simp
  | ok messages =>
    by_cases he : messages.isEmpty
    · simp [he]
    · have hlen : messages.length ≤ 100 := hbound _ _ _ hp
      have hd : decide (messages.length < l) = true := by
        simp only [decide_eq_true_eq]; omega
      simp only [he, Bool.false_eq_true, if_false, hd, Bool.true_or, if_true]
      constructor
      · trivial
      · have := processMessages_count_le env w.account messages
          (w.store, { success := true, count := 0, new_count := 0, updated_count := 0,
                      errors := [], error := none }, 0)
        simp at this
        omega

/-- Minimal distinct messages for the pagination runs. -/
def c3Msg (i : Nat) : RawMsg := [("id", JsonVal.str (toString i))]

/-- A mailbox of 101 matching messages served in `$top`-sized pages from
`$skip`. -/
def c3Server : FetchEnv :=
  { getUserMessages := fun top skip _ =>
      .ok ((((List.range 101).map c3Msg).drop skip).take top),
    dbFail := fun _ => none }

set_option maxRecDepth 8000 in
/-- C3 counterexample: with `limit = 101` and 101 matching messages, the
claim predicts successive pages until 101 messages are fetched; the code
stops after the single first page of 100 (one network call, `count = 100`). -/
theorem C3_counterexample :
    (fetch_emails_for_account c3Server (some 101) none 5 activeW).1.count = 100 ∧
    (fetch_emails_for_account c3Server (some 101) none 5 activeW).1.count ≠ 101 ∧
    (fetch_emails_for_account c3Server (some 101) none 5 activeW).2.networkCalls = 1 := by
  decide

/-- C3 witness: `limit = 150` over the same mailbox — one page request. -/
theorem C3_witness :
    (fetch_emails_for_account c3Server (some 150) none 4 activeW).2.networkCalls =
      activeW.networkCalls + 1 ∧
    (fetch_emails_for_account c3Server (some 150) none 4 activeW).1.count ≤ 100 :=
  C3_amended_limit_over_100_single_page c3Server 150 none 3 activeW rfl (by decide)
    (by
      intro skip f ms h
      injection h with h2
      rw [← h2, List.length_take]
      exact Nat.min_le_left _ _)

/-- A freshly built row matches its own natural key. -/
lemma rowMatches_self (e : String) (gid : String) (d : ModelData) :
    rowMatches e (.str gid) ⟨e, .str gid, d⟩ = true := by
  simp [rowMatches, JsonVal.beq]

/-- Overwriting a row's fields leaves its natural-key columns alone. -/
lemma rowMatches_data_update (e : String) (g : JsonVal) (d : ModelData) (r : EmailRow) :
    rowMatches e g { r with data := d } = rowMatches e g r := rfl

/-- Upserting the same natural key twice into a store not yet holding it:
the first call creates, the second updates in place — the latest fields
win, exactly one row exists under the key, and no row is added by the
second call. -/
lemma upsert_twice (st : Store) (e : String) (gid : String) (d1 d2 : ModelData)
    (hfresh : st.any (rowMatches e (.str gid)) = false) :
    (update_or_create st e (.str gid) d1).2 = true ∧
    (update_or_create (update_or_create st e (.str gid) d1).1 e (.str gid) d2).2 = false ∧
    (lookupRow (update_or_create (update_or_create st e (.str gid) d1).1 e
        (.str gid) d2).1 e (.str gid)).map EmailRow.data = some d2 ∧
    countRows (update_or_create (update_or_create st e (.str gid) d1).1 e
        (.str gid) d2).1 e (.str gid) = 1 ∧
    (update_or_create (update_or_create st e (.str gid) d1).1 e (.str gid) d2).1.length =
      (update_or_create st e (.str gid) d1).1.length := by
  have hall : ∀ r ∈ st, rowMatches e (.str gid) r = false := by
    rw [List.any_eq_false] at hfresh
    intro r hr
    simpa using hfresh r hr
  have hu1 : update_or_create st e (.str gid) d1 =
      (st ++ [EmailRow.mk e (.str gid) d1], true) := by
    simp [update_or_create, hfresh]
  have hany2 : (st ++ [EmailRow.mk e (.str gid) d1]).any (rowMatches e (.str gid)) = true := by
    simp [List.any_append, rowMatches_self]
  have hmapid : st.map (fun r => if rowMatches e (.str gid) r then { r with data := d2 } else r) = st := by
    conv_rhs => rw [← List.map_id st]
    apply List.map_congr_left
    intro r hr
    simp [hall r hr]
  have hu2 : update_or_create (st ++ [EmailRow.mk e (.str gid) d1]) e (.str gid) d2 =
      (st ++ [EmailRow.mk e (.str gid) d2], false) := by
    simp only [update_or_create, hany2, if_true, List.map_append, hmapid]
    simp [rowMatches_self]
  refine ⟨by rw [hu1], by rw [hu1, hu2], ?_, ?_, ?_⟩
  · rw [hu1, hu2]
    simp only [lookupRow, List.find?_append]
    have hnone : st.find? (rowMatches e (.str gid)) = none := by
      rw [List.find?_eq_none]
      intro r hr
      simp [hall r hr]
    rw [hnone]
    simp [List.find?, rowMatches_self]
  · rw [hu1, hu2]
    simp only [countRows, List.filter_append]
    have hnil : st.filter (rowMatches e (.str gid)) = [] := by
      rw [List.filter_eq_nil_iff]
      intro r hr
      simp [hall r hr]
    rw [hnil]
    simp [List.filter, rowMatches_self]
  · rw [hu1, hu2]
    simp

/-- Normalization reads the account only through its email identity. -/
lemma convert_congr_email (m : RawMsg) (a b : Account) (h : a.email = b.email) :
    convert_graph_email_to_model m a = convert_graph_email_to_model m b := by
  unfold convert_graph_email_to_model
  rw [h]

/-- A mailbox whose only page is the single message `m`. -/
def singlePageEnv (m : RawMsg) : FetchEnv :=
  { getUserMessages := fun _top skip _f => if skip = 0 then .ok [m] else .ok [],
    dbFail := fun _ => none }

/-- A fetch over a single-message mailbox: one page request, one upsert,
success status written. -/
lemma fetch_single_page (w : World) (m : RawMsg) (gid : String) (d : ModelData) (fuel : Nat)
    (hactive : w.account.is_active = true)
    (hid : dictGet m "id" = some (.str gid))
    (hgid : gid ≠ "")
    (hc : convert_graph_email_to_model m w.account = .ok d) :
    fetch_emails_for_account (singlePageEnv m) none none (fuel + 1) w =
      ({ success := true, count := 1,
         new_count := if (update_or_create w.store w.account.email (.str gid) d).2 then 1 else 0,
         updated_count := if (update_or_create w.store w.account.email (.str gid) d).2 then 0 else 1,
         errors := [], error := none },
       { w with store := (update_or_create w.store w.account.email (.str gid) d).1,
                networkCalls := w.networkCalls + 1,
                account := { w.account with last_synced := some w.now, sync_error := none },
                syncSaves := w.syncSaves + 1 }) := by
  have hb : (gid != "") = true := by simpa using hgid
  simp only [fetch_emails_for_account, hactive, Bool.not_true, Bool.false_eq_true, if_false,
    fetchLoop, singlePageEnv, Option.map_none]
  norm_num
  simp only [processMessages, List.foldl_cons, List.foldl_nil, processMessage, hid, pyTruthy,
    hb, Bool.not_true, Bool.false_eq_true, if_false, hc]
  simp [applySyncStatus, limitReached]
  exact hactive

/-- C1: fetching the same external message id for the same account twice is
idempotent — the upsert keys on the pair (account, Graph id); the first
fetch creates (`new_count = 1`), the second updates (`updated_count = 1`,
`new_count = 0`), the stored row's fields equal the latest payload's
normalized fields, exactly one row exists under the key and the second
fetch adds no row. -/
theorem C1_refetch_idempotent
    (w : World) (m1 m2 : RawMsg) (gid : String) (d1 d2 : ModelData) (fuel1 fuel2 : Nat)
    (hactive : w.account.is_active = true)
    (hid1 : dictGet m1 "id" = some (.str gid))
    (hid2 : dictGet m2 "id" = some (.str gid))
    (hgid : gid ≠ "")
    (hc1 : convert_graph_email_to_model m1 w.account = .ok d1)
    (hc2 : convert_graph_email_to_model m2 w.account = .ok d2)
    (hfresh : w.store.any (rowMatches w.account.email (.str gid)) = false) :
    (fetch_emails_for_account (singlePageEnv m1) none none (fuel1 + 1) w).1.new_count = 1 ∧
    (fetch_emails_for_account (singlePageEnv m1) none none (fuel1 + 1) w).1.updated_count = 0 ∧
    (fetch_emails_for_account (singlePageEnv m1) none none (fuel1 + 1) w).1.count = 1 ∧
    (fetch_emails_for_account (singlePageEnv m2) none none (fuel2 + 1)
        (fetch_emails_for_account (singlePageEnv m1) none none (fuel1 + 1) w).2).1.new_count = 0 ∧
    (fetch_emails_for_account (singlePageEnv m2) none none (fuel2 + 1)
        (fetch_emails_for_account (singlePageEnv m1) none none (fuel1 + 1) w).2).1.updated_count = 1 ∧
    (fetch_emails_for_account (singlePageEnv m2) none none (fuel2 + 1)
        (fetch_emails_for_account (singlePageEnv m1) none none (fuel1 + 1) w).2).1.count = 1 ∧
    (lookupRow (fetch_emails_for_account (singlePageEnv m2) none none (fuel2 + 1)
        (fetch_emails_for_account (singlePageEnv m1) none none (fuel1 + 1) w).2).2.store
      w.account.email (.str gid)).map EmailRow.data = some d2 ∧
    countRows (fetch_emails_for_account (singlePageEnv m2) none none (fuel2 + 1)
        (fetch_emails_for_account (singlePageEnv m1) none none (fuel1 + 1) w).2).2.store
      w.account.email (.str gid) = 1 ∧
    (fetch_emails_for_account (singlePageEnv m2) none none (fuel2 + 1)
        (fetch_emails_for_account (singlePageEnv m1) none none (fuel1 + 1) w).2).2.store.length =
      (fetch_emails_for_account (singlePageEnv m1) none none (fuel1 + 1) w).2.store.length := by
  have e1 := fetch_single_page w m1 gid d1 fuel1 hactive hid1 hgid hc1
  obtain ⟨hu1, hu2, hlook, hcount, hlen⟩ :=
    upsert_twice w.store w.account.email gid d1 d2 hfresh
  have hact2 : (fetch_emails_for_account (singlePageEnv m1) none none (fuel1 + 1) w).2.account.is_active = true := by
    rw [e1]; exact hactive
  have hconv2 : convert_graph_email_to_model m2
      (fetch_emails_for_account (singlePageEnv m1) none none (fuel1 + 1) w).2.account = .ok d2 := by
    rw [e1]
    exact (convert_congr_email m2 _ w.account rfl).trans hc2
  have e2 := fetch_single_page
    (fetch_emails_for_account (singlePageEnv m1) none none (fuel1 + 1) w).2
    m2 gid d2 fuel2 hact2 hid2 hgid hconv2
  rw [e1] at e2
  rw [e1, e2]
  refine ⟨?_, ?_, ?_, ?_, ?_, ?_, ?_, ?_, ?_⟩ <;>
    simp [hu1, hu2, hlook, hcount, hlen]

/-- First payload under Graph id `g1`. -/
def c1Msg1 : RawMsg := [("id", .str "g1"), ("subject", .str "first")]
/-- Re-fetched payload under the same Graph id with changed fields. -/
def c1Msg2 : RawMsg := [("id", .str "g1"), ("subject", .str "second")]
/-- Normalized record of `c1Msg1`. -/
def c1Md1 : ModelData :=
  ((convert_graph_email_to_model c1Msg1 activeW.account).toOption).getD mdDefault
/-- Normalized record of `c1Msg2`. -/
def c1Md2 : ModelData :=
  ((convert_graph_email_to_model c1Msg2 activeW.account).toOption).getD mdDefault

/-- C1 witness: two concrete fetches of Graph id `g1`. -/
theorem C1_witness :
    (fetch_emails_for_account (singlePageEnv c1Msg1) none none 1 activeW).1.new_count = 1 ∧
    (fetch_emails_for_account (singlePageEnv c1Msg2) none none 1
        (fetch_emails_for_account (singlePageEnv c1Msg1) none none 1 activeW).2).1.new_count = 0 ∧
    (fetch_emails_for_account (singlePageEnv c1Msg2) none none 1
        (fetch_emails_for_account (singlePageEnv c1Msg1) none none 1 activeW).2).1.updated_count = 1 ∧
    countRows (fetch_emails_for_account (singlePageEnv c1Msg2) none none 1
        (fetch_emails_for_account (singlePageEnv c1Msg1) none none 1 activeW).2).2.store
      activeW.account.email (.str "g1") = 1 :=
  have h := C1_refetch_idempotent activeW c1Msg1 c1Msg2 "g1" c1Md1 c1Md2 0 0
    rfl rfl rfl (by decide) rfl rfl rfl
  ⟨h.1, h.2.2.2.1, h.2.2.2.2.1, h.2.2.2.2.2.2.2.1⟩
